import Mathlib

/-!
Shallow embedding of `src/fintual.py` (stock-portfolio toy program).

Modelling conventions:
* Python floats are modelled as exact rationals `ℚ`; the one operation that
  leaves the rationals (`**` with a fractional exponent in
  `_calculate_annualized_return`) is modelled with real exponentiation `ℝ`.
* `random.randint(lo, hi)` is modelled as a function of an explicit entropy
  argument whose result always lies in `[lo, hi]`, which is the contract of
  Python's `randint`; `random.sample` is modelled as repeated selection
  without replacement driven by an entropy stream.
* Raising an exception is modelled with `Except`: `InvalidDateFormat` carries
  its rendered message, and Python's `ZeroDivisionError` is `PyError.zeroDivision`.
* `print` is modelled by returning the list of emitted lines.  A fully
  rendered line is `Line.text s`; the one line whose number is an
  irrational real (`Annualized profit: {v:.2f}%`) is kept structurally as
  `Line.annualizedProfit v` because decimal formatting of an abstract real is
  not modelled.  Digits are modelled as ASCII `0`-`9`.
-/

/-- The fixed ticker catalog `CUSTOM_RANDOM_STOCKS` from the source. -/
def CUSTOM_RANDOM_STOCKS : List String :=
  ["MSFT", "AAPL", "AMZN", "GOOGL", "TSLA", "META", "NVDA", "FINTUAL"]

/-- The fixed message suffix `MESSAGE_ERROR` from the source. -/
def MESSAGE_ERROR : String := "Invalid date format. Please use the format yyyy-mm-dd."

/-- Python errors that the program can raise. -/
inductive PyError where
  | invalidDateFormat (msg : String) : PyError
  | zeroDivision : PyError
deriving DecidableEq

/-- A calendar date as produced by `datetime.strptime` (time fields are always
zero for the `%Y-%m-%d` format, so only the date triple is kept). -/
structure PyDate where
  year : ℕ
  month : ℕ
  day : ℕ
deriving DecidableEq

/-- Gregorian leap-year test, as used by Python's `datetime`. -/
def isLeap (y : ℕ) : Bool := y % 4 == 0 && (y % 100 != 0 || y % 400 == 0)

/-- Length of month `m` of year `y` (Python `calendar`/`datetime` rules). -/
def days_in_month (y m : ℕ) : ℕ :=
  if m = 2 then (if isLeap y then 29 else 28)
  else if m = 4 ∨ m = 6 ∨ m = 9 ∨ m = 11 then 30
  else 31

/-- The validity check performed by the `datetime` constructor: year in
`[1, 9999]`, month in `[1, 12]`, day in `[1, days_in_month]`. -/
def datetime_ok (y m d : ℕ) : Bool :=
  1 ≤ y && y ≤ 9999 && 1 ≤ m && m ≤ 12 && 1 ≤ d && d ≤ days_in_month y m

/-- Numeric value of an ASCII digit character. -/
def digitVal (c : Char) : ℕ := c.toNat - 48

/-- `%Y` of CPython `_strptime`: exactly four digits, returned with the rest
of the input. -/
def parseYear4 : List Char → Option (ℕ × List Char)
  | a :: b :: c :: d :: rest =>
    if a.isDigit && b.isDigit && c.isDigit && d.isDigit then
      some (1000 * digitVal a + 100 * digitVal b + 10 * digitVal c + digitVal d, rest)
    else none
  | _ => none

/-- `%m` / `%d` of CPython `_strptime`: one or two digits, two-digit form
preferred, value in `[1, mx]` (`mx` = 12 for months, 31 for days).  The
ordered regex alternation (two-digit alternatives before `[1-9]`) together
with the mandatory following `-` or end of input makes this deterministic
parse observationally equal to the regex with backtracking. -/
def parseMonthDay (mx : ℕ) : List Char → Option (ℕ × List Char)
  | a :: b :: rest =>
    if a.isDigit && b.isDigit then
      (if 1 ≤ 10 * digitVal a + digitVal b ∧ 10 * digitVal a + digitVal b ≤ mx then
        some (10 * digitVal a + digitVal b, rest)
      else none)
    else if a.isDigit && decide (1 ≤ digitVal a) then some (digitVal a, b :: rest)
    else none
  | [a] => if a.isDigit && decide (1 ≤ digitVal a) then some (digitVal a, []) else none
  | [] => none

/-- Consume a literal `-`. -/
def expectDash : List Char → Option (List Char)
  | c :: rest => if c = '-' then some rest else none
  | [] => none

/-- The full-match regex part of `strptime(s, "%Y-%m-%d")`: year, dash, month,
dash, day, and no unconverted data left. -/
def parse_ymd_chars (cs : List Char) : Option (ℕ × ℕ × ℕ) := do
  let (y, r1) ← parseYear4 cs
  let r2 ← expectDash r1
  let (m, r3) ← parseMonthDay 12 r2
  let r4 ← expectDash r3
  let (d, r5) ← parseMonthDay 31 r4
  if r5 = [] then some (y, m, d) else none

/-- `datetime.strptime(s, "%Y-%m-%d")`: regex match followed by the
`datetime` constructor's calendar validation; `none` models `ValueError`. -/
def strptime_Ymd (s : String) : Option PyDate :=
  match parse_ymd_chars s.data with
  | some (y, m, d) => if datetime_ok y m d then some ⟨y, m, d⟩ else none
  | none => none

/-- `Portfolio._validate_date_format`: returns the parsed date, or raises
`InvalidDateFormat` whose message embeds the offending string. -/
def _validate_date_format (date_str : String) : Except PyError PyDate :=
  match strptime_Ymd date_str with
  | some d => .ok d
  | none => .error (.invalidDateFormat (date_str ++ " is not a valid date. " ++ MESSAGE_ERROR))

/-- Days in all years strictly before year `y` in the proleptic Gregorian
calendar (as in CPython's `datetime._days_before_year`). -/
def days_before_year (y : ℕ) : ℕ :=
  (y - 1) * 365 + (y - 1) / 4 - (y - 1) / 100 + (y - 1) / 400

/-- Days in year `y` strictly before month `m` (CPython
`datetime._days_before_month`). -/
def days_before_month (y m : ℕ) : ℕ :=
  (match m with
    | 1 => 0 | 2 => 31 | 3 => 59 | 4 => 90 | 5 => 120 | 6 => 151
    | 7 => 181 | 8 => 212 | 9 => 243 | 10 => 273 | 11 => 304 | 12 => 334
    | _ => 365)
  + (if 3 ≤ m ∧ isLeap y then 1 else 0)

/-- `date.toordinal()`: proleptic Gregorian ordinal of the date. -/
def toOrdinal (d : PyDate) : ℕ :=
  days_before_year d.year + days_before_month d.year d.month + d.day

/-- `Portfolio._calculate_days_difference`: `abs((end_date - start_date).days)`.
For two midnight datetimes the timedelta's `days` field is the difference of
the dates' ordinals. -/
def _calculate_days_difference (start_date end_date : PyDate) : ℤ :=
  |(toOrdinal end_date : ℤ) - (toOrdinal start_date : ℤ)|

/-- `Portfolio._calculate_years_difference`: days difference divided by 365
(Python true division of an int by an int, modelled exactly). -/
def _calculate_years_difference (start_date end_date : PyDate) : ℚ :=
  (_calculate_days_difference start_date end_date : ℚ) / 365

/-- The `datetime` constructor's constraints as a proposition on `PyDate`. -/
def ValidDate (d : PyDate) : Prop :=
  1 ≤ d.year ∧ d.year ≤ 9999 ∧ 1 ≤ d.month ∧ d.month ≤ 12 ∧
    1 ≤ d.day ∧ d.day ≤ days_in_month d.year d.month

/-- Model of Python `random.randint(lo, hi)`: a draw driven by an entropy
value `e`, always landing in `[lo, hi]` (the library's contract) and reaching
every point of the range as `e` varies. -/
def randint (lo hi e : ℕ) : ℕ := lo + e % (hi + 1 - lo)

/-- Model of Python `random.sample(l, k)`: `k` selections without
replacement, each picking a position in the remaining pool from the entropy
stream `es`. -/
def sample (l : List String) (k : ℕ) (es : ℕ → ℕ) : List String :=
  match k with
  | 0 => []
  | k + 1 =>
    if h : l.length ≠ 0 then
      let i := es 0 % l.length
      l.get ⟨i, Nat.mod_lt _ (Nat.pos_of_ne_zero h)⟩ ::
        sample (l.eraseIdx i) k (fun n => es (n + 1))
    else []

/-- The `Stock` class: only the ticker name is stored. -/
structure Stock where
  name : String
deriving DecidableEq

/-- `Stock._generate_random_price`: `randint(1, 1000) + randint(1, 100) / 100`,
driven by two entropy values. -/
def _generate_random_price (e1 e2 : ℕ) : ℚ :=
  (randint 1 1000 e1 : ℚ) + (randint 1 100 e2 : ℚ) / 100

/-- `Stock.get_price`: delegates to `_generate_random_price`. -/
def Stock.get_price (_self : Stock) (e1 e2 : ℕ) : ℚ := _generate_random_price e1 e2

/-- The `Portfolio` class: the list of stocks chosen at construction. -/
structure Portfolio where
  stocks : List Stock

/-- `Portfolio._generate_random_stocks`:
`[Stock(name) for name in sample(CUSTOM_RANDOM_STOCKS, randint(1, len(CUSTOM_RANDOM_STOCKS)))]`. -/
def _generate_random_stocks (e0 : ℕ) (es : ℕ → ℕ) : List Stock :=
  let stock_count := randint 1 CUSTOM_RANDOM_STOCKS.length e0
  (sample CUSTOM_RANDOM_STOCKS stock_count es).map Stock.mk

/-- `Portfolio.__init__`: stores a fresh random stock list. -/
def Portfolio.init (e0 : ℕ) (es : ℕ → ℕ) : Portfolio :=
  ⟨_generate_random_stocks e0 es⟩

/-- `Portfolio._get_portfolio_value`: sum of a fresh `get_price` for every
member stock; stock `i` consumes entropy values `es (2*i)` and `es (2*i+1)`. -/
def _get_portfolio_value (p : Portfolio) (es : ℕ → ℕ) : ℚ :=
  (p.stocks.enum.map (fun x => x.2.get_price (es (2 * x.1)) (es (2 * x.1 + 1)))).sum

/-- `Portfolio._calculate_profit_percentage`:
`(final_price - initial_price) / initial_price * 100`; Python float division
raises `ZeroDivisionError` on a zero denominator. -/
def _calculate_profit_percentage (initial_price final_price : ℚ) : Except PyError ℚ :=
  if initial_price = 0 then .error .zeroDivision
  else .ok ((final_price - initial_price) / initial_price * 100)

/-- `Portfolio._calculate_annualized_return`:
`((final_price / initial_price) ** (1 / years) - 1) * 100`.  Python evaluates
`final_price / initial_price` first (raising on a zero denominator), then
`1 / years` (raising when `years == 0`); the surviving exponentiation has a
positive base and is real-number exponentiation. -/
noncomputable def _calculate_annualized_return
    (initial_price final_price years : ℚ) : Except PyError ℝ :=
  if initial_price = 0 then .error .zeroDivision
  else if years = 0 then .error .zeroDivision
  else .ok ((((final_price / initial_price : ℚ) : ℝ) ^ ((1 : ℝ) / ((years : ℚ) : ℝ)) - 1) * 100)

/-- Round a rational to the nearest integer, ties to even (the rounding of
Python's fixed-point float formatting). -/
def roundHalfEven (q : ℚ) : ℤ :=
  if q - ⌊q⌋ < 1/2 then ⌊q⌋
  else if 1/2 < q - ⌊q⌋ then ⌊q⌋ + 1
  else if ⌊q⌋ % 2 = 0 then ⌊q⌋ else ⌊q⌋ + 1

/-- Two-digit zero-padded decimal string. -/
def natPad2 (n : ℕ) : String := if n < 10 then "0" ++ toString n else toString n

/-- Python's `f"{x:.2f}"` on the exact rational value. -/
def formatFixed2 (x : ℚ) : String :=
  (if x < 0 then "-" else "")
    ++ toString ((roundHalfEven (|x| * 100)).toNat / 100)
    ++ "." ++ natPad2 ((roundHalfEven (|x| * 100)).toNat % 100)

/-- One printed line.  `text` is a fully rendered line; `annualizedProfit v`
stands for the line `Annualized profit: {v:.2f}%` whose real-valued number is
kept unformatted. -/
inductive Line where
  | text (s : String) : Line
  | annualizedProfit (value : ℝ) : Line

/-- `Portfolio.calculate_profit_between`: validates both dates, takes two
independent valuations, computes the profit percentage and prints one line.
The returned list is the printed output; the Python function returns `None`. -/
def calculate_profit_between (p : Portfolio) (es1 es2 : ℕ → ℕ)
    (start_date_str end_date_str : String) : Except PyError (List Line) := do
  let _ ← _validate_date_format start_date_str
  let _ ← _validate_date_format end_date_str
  let initial_price := _get_portfolio_value p es1
  let final_price := _get_portfolio_value p es2
  let total_profit ← _calculate_profit_percentage initial_price final_price
  pure [Line.text ("Profit between " ++ start_date_str ++ " and " ++ end_date_str
    ++ ": " ++ formatFixed2 total_profit ++ "%")]

/-- `Portfolio.calculate_profit_annualized`: validates both dates, takes two
independent valuations, computes years, profit percentage and annualized
return, and prints two lines (cumulative, then annualized). -/
noncomputable def calculate_profit_annualized (p : Portfolio) (es1 es2 : ℕ → ℕ)
    (start_date_str end_date_str : String) : Except PyError (List Line) := do
  let start_date ← _validate_date_format start_date_str
  let end_date ← _validate_date_format end_date_str
  let initial_price := _get_portfolio_value p es1
  let final_price := _get_portfolio_value p es2
  let years := _calculate_years_difference start_date end_date
  let total_profit ← _calculate_profit_percentage initial_price final_price
  let annualized_profit ← _calculate_annualized_return initial_price final_price years
  pure [Line.text ("Profit since " ++ start_date_str ++ ": "
      ++ formatFixed2 total_profit ++ "%"),
    Line.annualizedProfit annualized_profit]

theorem randint_bounds (lo hi e : ℕ) (h : lo ≤ hi) :
    lo ≤ randint lo hi e ∧ randint lo hi e ≤ hi := by
  have hlt : e % (hi + 1 - lo) < hi + 1 - lo := Nat.mod_lt _ (by omega)
  unfold randint
  omega

theorem generate_random_price_bounds (e1 e2 : ℕ) :
    101/100 ≤ _generate_random_price e1 e2 ∧ _generate_random_price e1 e2 ≤ 1001 := by
  obtain ⟨hi1, hi2⟩ := randint_bounds 1 1000 e1 (by omega)
  obtain ⟨hc1, hc2⟩ := randint_bounds 1 100 e2 (by omega)
  have hi1' : (1 : ℚ) ≤ (randint 1 1000 e1 : ℚ) := by exact_mod_cast hi1
  have hi2' : (randint 1 1000 e1 : ℚ) ≤ 1000 := by exact_mod_cast hi2
  have hc1' : (1 : ℚ) ≤ (randint 1 100 e2 : ℚ) := by exact_mod_cast hc1
  have hc2' : (randint 1 100 e2 : ℚ) ≤ 100 := by exact_mod_cast hc2
  unfold _generate_random_price
  constructor <;> linarith

theorem sample_length (k : ℕ) (l : List String) (es : ℕ → ℕ) (h : k ≤ l.length) :
    (sample l k es).length = k := by
  induction k generalizing l es with
  | zero => rfl
  | succ k ih =>
    have hne : l.length ≠ 0 := by omega
    rw [sample, dif_pos hne, List.length_cons, ih]
    rw [List.length_eraseIdx, if_pos (Nat.mod_lt _ (Nat.pos_of_ne_zero hne))]
    omega

theorem sample_subset (k : ℕ) (l : List String) (es : ℕ → ℕ) :
    ∀ x ∈ sample l k es, x ∈ l := by
  induction k generalizing l es with
  | zero => intro x hx; simp [sample] at hx
  | succ k ih =>
    intro x hx
    rw [sample] at hx
    split at hx
    · rcases List.mem_cons.mp hx with h | h
      · exact h ▸ List.get_mem _ _ _
      · exact (List.eraseIdx_sublist _ _).subset (ih _ _ x h)
    · simp at hx

theorem get_not_mem_eraseIdx (l : List String) (i : ℕ) (h : i < l.length)
    (hl : l.Nodup) : l.get ⟨i, h⟩ ∉ l.eraseIdx i := by
  induction l generalizing i with
  | nil => simp at h
  | cons a t ih =>
    rcases List.nodup_cons.mp hl with ⟨ha, ht⟩
    cases i with
    | zero => simpa using ha
    | succ i =>
      have hi : i < t.length := by simpa using h
      intro hmem
      rcases List.mem_cons.mp hmem with heq | hmem'
      · exact ha (heq ▸ List.get_mem t i hi)
      · exact ih i hi ht hmem'

theorem sample_nodup (k : ℕ) (l : List String) (es : ℕ → ℕ) (hl : l.Nodup) :
    (sample l k es).Nodup := by
  induction k generalizing l es with
  | zero => simp [sample]
  | succ k ih =>
    rw [sample]
    split
    · refine List.nodup_cons.mpr ⟨fun hmem => ?_, ih _ _ ((List.eraseIdx_sublist _ _).nodup hl)⟩
      exact get_not_mem_eraseIdx l _ _ hl (sample_subset _ _ _ _ hmem)
    · exact List.nodup_nil

theorem custom_random_stocks_nodup : CUSTOM_RANDOM_STOCKS.Nodup := by decide

theorem generate_random_stocks_spec (e0 : ℕ) (es : ℕ → ℕ) :
    1 ≤ (_generate_random_stocks e0 es).length ∧
      (_generate_random_stocks e0 es).length ≤ 8 ∧
      (∀ s ∈ _generate_random_stocks e0 es, s.name ∈ CUSTOM_RANDOM_STOCKS) ∧
      ((_generate_random_stocks e0 es).map Stock.name).Nodup := by
  obtain ⟨h1, h2⟩ := randint_bounds 1 CUSTOM_RANDOM_STOCKS.length e0 (by decide)
  have hlen : (_generate_random_stocks e0 es).length
      = randint 1 CUSTOM_RANDOM_STOCKS.length e0 := by
    unfold _generate_random_stocks
    rw [List.length_map, sample_length _ _ _ h2]
  refine ⟨by omega, by rw [hlen]; exact h2, ?_, ?_⟩
  · intro s hs
    unfold _generate_random_stocks at hs
    rcases List.mem_map.mp hs with ⟨x, hx, rfl⟩
    exact sample_subset _ _ _ x hx
  · unfold _generate_random_stocks
    rw [List.map_map]
    have : (Stock.name ∘ Stock.mk) = id := rfl
    rw [this, List.map_id]
    exact sample_nodup _ _ _ custom_random_stocks_nodup

theorem portfolio_value_pos (e0' : ℕ) (esS es : ℕ → ℕ) :
    0 < _get_portfolio_value (Portfolio.init e0' esS) es := by
  unfold _get_portfolio_value
  apply List.sum_pos
  · intro x hx
    rcases List.mem_map.mp hx with ⟨y, _, rfl⟩
    have := (generate_random_price_bounds (es (2 * y.1)) (es (2 * y.1 + 1))).1
    unfold Stock.get_price
    linarith
  · apply List.ne_nil_of_length_pos
    rw [List.length_map, List.enum_length]
    have := (generate_random_stocks_spec e0' esS).1
    simpa [Portfolio.init] using this

theorem validate_ok_iff (s : String) (d : PyDate) :
    _validate_date_format s = .ok d ↔ strptime_Ymd s = some d := by
  unfold _validate_date_format
  cases h : strptime_Ymd s <;> simp

theorem days_in_month_le (y m : ℕ) : days_in_month y m ≤ 31 := by
  unfold days_in_month
  split
  · split <;> omega
  · split <;> omega

theorem strptime_valid (s : String) (d : PyDate) (h : strptime_Ymd s = some d) :
    ValidDate d := by
  unfold strptime_Ymd at h
  cases hp : parse_ymd_chars s.data with
  | none => rw [hp] at h; exact absurd h (by simp)
  | some t =>
    obtain ⟨y, m, dd⟩ := t
    rw [hp] at h
    dsimp only at h
    by_cases hok : datetime_ok y m dd = true
    · rw [if_pos hok] at h
      cases h
      unfold datetime_ok at hok
      simp only [Bool.and_eq_true, decide_eq_true_eq] at hok
      exact ⟨hok.1.1.1.1.1, hok.1.1.1.1.2, hok.1.1.1.2, hok.1.1.2, hok.1.2, hok.2⟩
    · rw [if_neg hok] at h
      exact absurd h (by simp)


/-- The ASCII digit character of a value in `[0, 9]`. -/
def natDigit : ℕ → Char
  | 0 => '0' | 1 => '1' | 2 => '2' | 3 => '3' | 4 => '4'
  | 5 => '5' | 6 => '6' | 7 => '7' | 8 => '8' | _ => '9'

/-- Four-digit zero-padded rendering as characters. -/
def pad4 (n : ℕ) : List Char :=
  [natDigit (n / 1000), natDigit (n / 100 % 10), natDigit (n / 10 % 10), natDigit (n % 10)]

/-- Two-digit zero-padded rendering as characters. -/
def pad2 (n : ℕ) : List Char := [natDigit (n / 10), natDigit (n % 10)]

/-- The strict zero-padded `YYYY-MM-DD` rendering of a date triple; this is
the shape the specification calls a valid date string. -/
def strictYMDString (y m d : ℕ) : String :=
  ⟨pad4 y ++ '-' :: (pad2 m ++ '-' :: pad2 d)⟩

theorem natDigit_isDigit (k : ℕ) (h : k ≤ 9) : (natDigit k).isDigit = true := by
  interval_cases k <;> decide

theorem digitVal_natDigit (k : ℕ) (h : k ≤ 9) : digitVal (natDigit k) = k := by
  interval_cases k <;> decide

theorem parseYear4_pad4 (y : ℕ) (hy : y ≤ 9999) (rest : List Char) :
    parseYear4 (pad4 y ++ rest) = some (y, rest) := by
  have h1 : y / 1000 ≤ 9 := by omega
  have h2 : y / 100 % 10 ≤ 9 := by omega
  have h3 : y / 10 % 10 ≤ 9 := by omega
  have h4 : y % 10 ≤ 9 := by omega
  simp only [pad4, List.cons_append, List.nil_append, parseYear4,
    natDigit_isDigit _ h1, natDigit_isDigit _ h2, natDigit_isDigit _ h3, natDigit_isDigit _ h4,
    digitVal_natDigit _ h1, digitVal_natDigit _ h2, digitVal_natDigit _ h3,
    digitVal_natDigit _ h4, Bool.and_self, if_true]
  simp only [Option.some.injEq, Prod.mk.injEq]
  exact ⟨by omega, trivial⟩

theorem parseMonthDay_pad2 (mx v : ℕ) (h1 : 1 ≤ v) (h2 : v ≤ mx) (hv : v ≤ 99)
    (rest : List Char) : parseMonthDay mx (pad2 v ++ rest) = some (v, rest) := by
  have ha : v / 10 ≤ 9 := by omega
  have hb : v % 10 ≤ 9 := by omega
  simp only [pad2, List.cons_append, List.nil_append, parseMonthDay,
    natDigit_isDigit _ ha, natDigit_isDigit _ hb,
    digitVal_natDigit _ ha, digitVal_natDigit _ hb, Bool.and_self, if_true]
  rw [show 10 * (v / 10) + v % 10 = v from by omega, if_pos ⟨h1, h2⟩]

theorem parseMonthDay_pad2_nil (mx v : ℕ) (h1 : 1 ≤ v) (h2 : v ≤ mx) (hv : v ≤ 99) :
    parseMonthDay mx (pad2 v) = some (v, []) := by
  have := parseMonthDay_pad2 mx v h1 h2 hv []
  rwa [List.append_nil] at this

theorem parse_ymd_chars_strict (y m d : ℕ) (hy : y ≤ 9999) (hm1 : 1 ≤ m) (hm2 : m ≤ 12)
    (hd1 : 1 ≤ d) (hd2 : d ≤ 31) :
    parse_ymd_chars (pad4 y ++ '-' :: (pad2 m ++ '-' :: pad2 d)) = some (y, m, d) := by
  simp only [parse_ymd_chars, Option.bind_eq_bind, parseYear4_pad4 y hy, Option.some_bind,
    expectDash, parseMonthDay_pad2 12 m hm1 hm2 (by omega : m ≤ 99),
    parseMonthDay_pad2_nil 31 d hd1 hd2 (by omega : d ≤ 99), if_true, if_pos rfl]

theorem strptime_strict (y m d : ℕ) (hy1 : 1 ≤ y) (hy2 : y ≤ 9999) (hm1 : 1 ≤ m)
    (hm2 : m ≤ 12) (hd1 : 1 ≤ d) (hd2 : d ≤ days_in_month y m) :
    strptime_Ymd (strictYMDString y m d) = some ⟨y, m, d⟩ := by
  have hd31 : d ≤ 31 := le_trans hd2 (days_in_month_le y m)
  unfold strptime_Ymd
  have hdata : (strictYMDString y m d).data = pad4 y ++ '-' :: (pad2 m ++ '-' :: pad2 d) := rfl
  rw [hdata, parse_ymd_chars_strict y m d hy2 hm1 hm2 hd1 hd31]
  dsimp only
  rw [if_pos]
  unfold datetime_ok
  simp only [Bool.and_eq_true, decide_eq_true_eq]
  exact ⟨⟨⟨⟨⟨hy1, hy2⟩, hm1⟩, hm2⟩, hd1⟩, hd2⟩

theorem isLeap_iff (y : ℕ) :
    isLeap y = true ↔ (y % 4 = 0 ∧ (y % 100 ≠ 0 ∨ y % 400 = 0)) := by
  unfold isLeap
  simp [Bool.and_eq_true, Bool.or_eq_true, beq_iff_eq, bne_iff_ne]

theorem days_before_month_succ (y m : ℕ) (h1 : 1 ≤ m) (h2 : m ≤ 12) :
    days_before_month y (m + 1) = days_before_month y m + days_in_month y m := by
  interval_cases m <;> cases hL : isLeap y <;>
    simp [days_before_month, days_in_month, hL]

theorem days_before_month_mono (y m m' : ℕ) (h1 : 1 ≤ m) (h : m ≤ m') (h2 : m' ≤ 13) :
    days_before_month y m ≤ days_before_month y m' := by
  have h0 : 1 ≤ m' := le_trans h1 h
  interval_cases m' <;> interval_cases m <;> cases hL : isLeap y <;>
    simp [days_before_month, hL]

theorem days_before_month_13 (y : ℕ) :
    days_before_month y 13 = 365 + (if isLeap y then 1 else 0) := by
  cases hL : isLeap y <;> simp [days_before_month, hL]

set_option maxHeartbeats 1000000 in
theorem days_before_year_succ (y : ℕ) (h : 1 ≤ y) :
    days_before_year (y + 1) = days_before_year y + (if isLeap y then 1 else 0) + 365 := by
  cases hL : isLeap y
  · have hnl : ¬(y % 4 = 0 ∧ (y % 100 ≠ 0 ∨ y % 400 = 0)) := by
      rw [← isLeap_iff, hL]; simp
    unfold days_before_year
    simp only [Nat.add_sub_cancel, hL, Bool.false_eq_true, if_false]
    omega
  · have hl := (isLeap_iff y).mp hL
    unfold days_before_year
    simp only [Nat.add_sub_cancel, hL, if_true]
    omega

theorem days_before_year_mono (a b : ℕ) (h : a ≤ b) :
    days_before_year a ≤ days_before_year b := by
  induction b with
  | zero =>
    have ha : a = 0 := by omega
    rw [ha]
  | succ b ih =>
    rcases Nat.lt_or_ge a (b + 1) with hab | hab
    · have step : days_before_year b ≤ days_before_year (b + 1) := by
        unfold days_before_year
        simp only [Nat.add_sub_cancel]
        omega
      exact le_trans (ih (by omega)) step
    · have : a = b + 1 := by omega
      exact this ▸ le_refl _

theorem toOrdinal_lt (d1 d2 : PyDate) (h1 : ValidDate d1) (h2 : ValidDate d2)
    (hlt : d1.year < d2.year ∨ (d1.year = d2.year ∧ d1.month < d2.month) ∨
      (d1.year = d2.year ∧ d1.month = d2.month ∧ d1.day < d2.day)) :
    toOrdinal d1 < toOrdinal d2 := by
  obtain ⟨hy1a, hy1b, hm1a, hm1b, hd1a, hd1b⟩ := h1
  obtain ⟨hy2a, hy2b, hm2a, hm2b, hd2a, hd2b⟩ := h2
  have e1 : days_before_month d1.year d1.month + d1.day
      ≤ days_before_month d1.year 13 := by
    calc days_before_month d1.year d1.month + d1.day
        ≤ days_before_month d1.year d1.month + days_in_month d1.year d1.month :=
          Nat.add_le_add_left hd1b _
      _ = days_before_month d1.year (d1.month + 1) :=
          (days_before_month_succ _ _ hm1a hm1b).symm
      _ ≤ days_before_month d1.year 13 :=
          days_before_month_mono _ _ _ (by omega) (by omega) (by omega)
  rcases hlt with hy | ⟨hy, hm⟩ | ⟨hy, hm, hd⟩
  · have h13 := days_before_month_13 d1.year
    have hsucc := days_before_year_succ d1.year hy1a
    have e2 : toOrdinal d1 ≤ days_before_year (d1.year + 1) := by
      unfold toOrdinal
      cases hL : isLeap d1.year <;> simp [hL] at h13 hsucc <;> omega
    have e3 : days_before_year (d1.year + 1) ≤ days_before_year d2.year :=
      days_before_year_mono _ _ (by omega)
    have e4 : days_before_year d2.year < toOrdinal d2 := by
      unfold toOrdinal; omega
    omega
  · have a1 : days_before_month d1.year d1.month + d1.day
        ≤ days_before_month d1.year (d1.month + 1) := by
      rw [days_before_month_succ _ _ hm1a hm1b]
      omega
    have a2 : days_before_month d1.year (d1.month + 1) ≤ days_before_month d1.year d2.month :=
      days_before_month_mono _ _ _ (by omega) (by omega) (by omega)
    unfold toOrdinal
    rw [hy] at a1 a2 ⊢
    omega
  · unfold toOrdinal
    rw [hy, hm]
    omega

theorem toOrdinal_ne (d1 d2 : PyDate) (h1 : ValidDate d1) (h2 : ValidDate d2)
    (hne : d1 ≠ d2) : toOrdinal d1 ≠ toOrdinal d2 := by
  rcases Nat.lt_trichotomy d1.year d2.year with hy | hy | hy
  · exact Nat.ne_of_lt (toOrdinal_lt d1 d2 h1 h2 (Or.inl hy))
  · rcases Nat.lt_trichotomy d1.month d2.month with hm | hm | hm
    · exact Nat.ne_of_lt (toOrdinal_lt d1 d2 h1 h2 (Or.inr (Or.inl ⟨hy, hm⟩)))
    · rcases Nat.lt_trichotomy d1.day d2.day with hd | hd | hd
      · exact Nat.ne_of_lt (toOrdinal_lt d1 d2 h1 h2 (Or.inr (Or.inr ⟨hy, hm, hd⟩)))
      · exact absurd (by cases d1; cases d2; simp_all) hne
      · exact (Nat.ne_of_lt (toOrdinal_lt d2 d1 h2 h1
          (Or.inr (Or.inr ⟨hy.symm, hm.symm, hd⟩)))).symm
    · exact (Nat.ne_of_lt (toOrdinal_lt d2 d1 h2 h1 (Or.inr (Or.inl ⟨hy.symm, hm⟩)))).symm
  · exact (Nat.ne_of_lt (toOrdinal_lt d2 d1 h2 h1 (Or.inl hy))).symm

theorem years_difference_self (d : PyDate) : _calculate_years_difference d d = 0 := by
  unfold _calculate_years_difference _calculate_days_difference
  simp

theorem years_difference_ne_zero (d1 d2 : PyDate) (h1 : ValidDate d1) (h2 : ValidDate d2)
    (hne : d1 ≠ d2) : _calculate_years_difference d1 d2 ≠ 0 := by
  have hord := toOrdinal_ne d1 d2 h1 h2 hne
  unfold _calculate_years_difference _calculate_days_difference
  intro hc
  rw [div_eq_zero_iff] at hc
  rcases hc with hc | hc
  · have habs : |(toOrdinal d2 : ℤ) - (toOrdinal d1 : ℤ)| = 0 := by exact_mod_cast hc
    rw [abs_eq_zero, sub_eq_zero] at habs
    exact hord (by exact_mod_cast habs.symm)
  · norm_num at hc

theorem except_bind_ok {α β : Type} (a : α) (f : α → Except PyError β) :
    (Except.ok a >>= f) = f a := rfl

theorem except_bind_error {α β : Type} (err : PyError) (f : α → Except PyError β) :
    ((Except.error err : Except PyError α) >>= f) = Except.error err := rfl

set_option maxRecDepth 10000 in
/-- C1: evaluation at the failing input.  With both `randint` draws at the
top of their documented ranges (integer part 1000, cents draw 100), the
price is `1000 + 100/100 = 1001`, which exceeds the documented maximum of
`1000.99`; the docstring of `_generate_random_price` promises a price
between 1.01 and 1000.99, but `randint(1, 100) / 100` reaches `1.00`. -/
theorem c1_price_exceeds_documented_max :
    randint 1 1000 999 = 1000 ∧ randint 1 100 99 = 100 ∧
      Stock.get_price ⟨"MSFT"⟩ 999 99 = (1000 : ℚ) + 100 / 100 ∧
      ¬(Stock.get_price ⟨"MSFT"⟩ 999 99 ≤ 100099 / 100) := by
  refine ⟨by decide, by decide, ?_, ?_⟩ <;> with_unfolding_all decide

/-- The strict zero-padded `YYYY-MM-DD` pattern in the spec's words: ten
characters, digits in the year, month and day positions, dashes between. -/
def spec_strict_ymd (s : String) : Bool :=
  match s.data with
  | [c1, c2, c3, c4, c5, c6, c7, c8, c9, c10] =>
    c1.isDigit && c2.isDigit && c3.isDigit && c4.isDigit && (c5 == '-')
      && c6.isDigit && c7.isDigit && (c8 == '-') && c9.isDigit && c10.isDigit
  | _ => false

/-- C2 counterexample: `"2022-1-1"` does not match the strict `YYYY-MM-DD`
pattern, yet `_validate_date_format` accepts it (CPython's `strptime`
regexes `%m`/`%d` as `1[0-2]|0[1-9]|[1-9]` and `3[01]|[12]\d|0[1-9]|[1-9]`,
so zero padding is optional), instead of raising `InvalidDateFormat` as the
claim requires. -/
theorem c2_counterexample :
    spec_strict_ymd "2022-1-1" = false ∧
      _validate_date_format "2022-1-1" = .ok ⟨2022, 1, 1⟩ := by
  exact ⟨by decide, by rfl⟩

/-- C2 amended: every string rejected by the lenient `%Y-%m-%d` parse
(four-digit year, one-or-two-digit month and day, calendar-valid) makes
`_validate_date_format` raise `InvalidDateFormat` whose message is exactly
the offending string followed by
`" is not a valid date. Invalid date format. Please use the format yyyy-mm-dd."`;
in particular the spec's examples `"2022-13-01"`, `"not-a-date"` and
`"2022/01/01"` are all rejected. -/
theorem c2_invalid_date_message (s : String) (h : strptime_Ymd s = none) :
    _validate_date_format s = .error (.invalidDateFormat
      (s ++ " is not a valid date. Invalid date format. Please use the format yyyy-mm-dd.")) ∧
      strptime_Ymd "2022-13-01" = none ∧ strptime_Ymd "not-a-date" = none ∧
      strptime_Ymd "2022/01/01" = none := by
  refine ⟨?_, by rfl, by rfl, by rfl⟩
  unfold _validate_date_format
  rw [h]
  dsimp only
  rw [String.append_assoc]
  with_unfolding_all rfl

/-- C2 witness: the amended theorem applied at `"2022-13-01"`. -/
theorem c2_invalid_date_message_witness :
    _validate_date_format "2022-13-01" = .error (.invalidDateFormat
      ("2022-13-01" ++ " is not a valid date. Invalid date format. Please use the format yyyy-mm-dd.")) :=
  (c2_invalid_date_message "2022-13-01" (by rfl)).1

/-- C3: for every calendar-valid date triple, validating its strict
zero-padded `YYYY-MM-DD` rendering succeeds and returns a date whose year,
month and day are exactly the numbers written in the string. -/
theorem c3_valid_roundtrip (y m d : ℕ) (hy1 : 1 ≤ y) (hy2 : y ≤ 9999) (hm1 : 1 ≤ m)
    (hm2 : m ≤ 12) (hd1 : 1 ≤ d) (hd2 : d ≤ days_in_month y m) :
    _validate_date_format (strictYMDString y m d) = .ok ⟨y, m, d⟩ := by
  rw [validate_ok_iff]
  exact strptime_strict y m d hy1 hy2 hm1 hm2 hd1 hd2

/-- C3 witness: the roundtrip theorem applied at `2022-07-31`. -/
theorem c3_valid_roundtrip_witness :
    strictYMDString 2022 7 31 = "2022-07-31" ∧
      _validate_date_format (strictYMDString 2022 7 31) = .ok ⟨2022, 7, 31⟩ :=
  ⟨by decide, c3_valid_roundtrip 2022 7 31 (by decide) (by decide) (by decide) (by decide)
    (by decide) (by decide)⟩

/-- C4: if the start date string is invalid, or the start is valid and the
end date string is invalid, both reporting operations re-raise that exact
`InvalidDateFormat` error and produce no output lines (the error result
carries no printed lines, so nothing is printed). -/
theorem c4_invalid_date_propagates (p : Portfolio) (es1 es2 : ℕ → ℕ) (s e : String)
    (err : PyError) :
    (_validate_date_format s = .error err →
        calculate_profit_between p es1 es2 s e = .error err ∧
        calculate_profit_annualized p es1 es2 s e = .error err) ∧
    (∀ ds : PyDate, _validate_date_format s = .ok ds →
        _validate_date_format e = .error err →
        calculate_profit_between p es1 es2 s e = .error err ∧
        calculate_profit_annualized p es1 es2 s e = .error err) := by
  constructor
  · intro hs
    constructor
    · unfold calculate_profit_between
      simp only [hs, except_bind_error]
    · unfold calculate_profit_annualized
      simp only [hs, except_bind_error]
  · intro ds hs he
    constructor
    · unfold calculate_profit_between
      simp only [hs, he, except_bind_ok, except_bind_error]
    · unfold calculate_profit_annualized
      simp only [hs, he, except_bind_ok, except_bind_error]

/-- C4 witness: the propagation theorem applied to the malformed start date
`"bad"`. -/
theorem c4_invalid_date_propagates_witness :
    calculate_profit_between ⟨[]⟩ (fun _ => 0) (fun _ => 0) "bad" "2022-01-01"
      = .error (.invalidDateFormat
        "bad is not a valid date. Invalid date format. Please use the format yyyy-mm-dd.") :=
  ((c4_invalid_date_propagates ⟨[]⟩ (fun _ => 0) (fun _ => 0) "bad" "2022-01-01"
    (.invalidDateFormat
      "bad is not a valid date. Invalid date format. Please use the format yyyy-mm-dd.")).1
    (by rfl)).1

/-- C5: for every constructed portfolio and every pair of strings accepted by
the validator, `calculate_profit_between` takes two independent valuations,
computes `(final - initial) / initial * 100` and prints exactly one line
`Profit between {start} and {end}: {value:.2f}%` with both input strings
verbatim; the Python function itself returns `None`, the list below is the
printed output. -/
theorem c5_profit_between_output (e0 : ℕ) (esS es1 es2 : ℕ → ℕ) (s e : String)
    (ds de : PyDate) (hs : _validate_date_format s = .ok ds)
    (he : _validate_date_format e = .ok de) :
    calculate_profit_between (Portfolio.init e0 esS) es1 es2 s e =
      .ok [Line.text ("Profit between " ++ s ++ " and " ++ e ++ ": "
        ++ formatFixed2 ((_get_portfolio_value (Portfolio.init e0 esS) es2
            - _get_portfolio_value (Portfolio.init e0 esS) es1)
          / _get_portfolio_value (Portfolio.init e0 esS) es1 * 100) ++ "%")] := by
  have h0 : ¬(_get_portfolio_value (Portfolio.init e0 esS) es1 = 0) :=
    ne_of_gt (portfolio_value_pos e0 esS es1)
  unfold calculate_profit_between
  simp only [hs, he, except_bind_ok, _calculate_profit_percentage, if_neg h0]
  rfl

/-- C5 witness: the output theorem applied at two concrete valid dates and a
concrete portfolio. -/
theorem c5_profit_between_output_witness :
    _validate_date_format "2020-01-01" = .ok ⟨2020, 1, 1⟩ ∧
      _validate_date_format "2022-01-01" = .ok ⟨2022, 1, 1⟩ ∧
      calculate_profit_between (Portfolio.init 0 (fun _ => 0)) (fun _ => 0) (fun _ => 0)
          "2020-01-01" "2022-01-01" =
        .ok [Line.text ("Profit between " ++ "2020-01-01" ++ " and " ++ "2022-01-01" ++ ": "
          ++ formatFixed2 ((_get_portfolio_value (Portfolio.init 0 (fun _ => 0)) (fun _ => 0)
              - _get_portfolio_value (Portfolio.init 0 (fun _ => 0)) (fun _ => 0))
            / _get_portfolio_value (Portfolio.init 0 (fun _ => 0)) (fun _ => 0) * 100)
          ++ "%")] :=
  ⟨by rfl, by rfl, c5_profit_between_output 0 (fun _ => 0) (fun _ => 0) (fun _ => 0)
    "2020-01-01" "2022-01-01" ⟨2020, 1, 1⟩ ⟨2022, 1, 1⟩ (by rfl) (by rfl)⟩

/-- C6 counterexample: `"2022-01-01"` and `"2022-1-1"` are distinct strings,
both accepted by the validator, but they denote the same date, so the days
difference is zero and `calculate_profit_annualized` raises
`ZeroDivisionError` instead of printing the two lines the claim promises. -/
theorem c6_counterexample :
    "2022-01-01" ≠ "2022-1-1" ∧
      _validate_date_format "2022-01-01" = .ok ⟨2022, 1, 1⟩ ∧
      _validate_date_format "2022-1-1" = .ok ⟨2022, 1, 1⟩ ∧
      calculate_profit_annualized (Portfolio.init 0 (fun _ => 0)) (fun _ => 0) (fun _ => 0)
        "2022-01-01" "2022-1-1" = .error .zeroDivision := by
  refine ⟨by decide, by rfl, by rfl, ?_⟩
  with_unfolding_all rfl

/-- C6 amended: for every pair of valid date strings whose parsed dates are
distinct, `calculate_profit_annualized` computes
`years = |days between end and start| / 365` from the parsed dates, and over
two independent valuations prints the cumulative profit line followed by the
annualized line carrying `((final/initial) ^ (1/years) - 1) * 100`. -/
theorem c6_annualized_output (e0 : ℕ) (esS es1 es2 : ℕ → ℕ) (s e : String)
    (ds de : PyDate) (hs : _validate_date_format s = .ok ds)
    (he : _validate_date_format e = .ok de) (hne : ds ≠ de) :
    _calculate_years_difference ds de = (_calculate_days_difference ds de : ℚ) / 365 ∧
      calculate_profit_annualized (Portfolio.init e0 esS) es1 es2 s e =
        .ok [Line.text ("Profit since " ++ s ++ ": "
            ++ formatFixed2 ((_get_portfolio_value (Portfolio.init e0 esS) es2
                - _get_portfolio_value (Portfolio.init e0 esS) es1)
              / _get_portfolio_value (Portfolio.init e0 esS) es1 * 100) ++ "%"),
          Line.annualizedProfit
            ((((_get_portfolio_value (Portfolio.init e0 esS) es2 : ℝ)
                / (_get_portfolio_value (Portfolio.init e0 esS) es1 : ℝ))
              ^ ((1 : ℝ) / (_calculate_years_difference ds de : ℝ)) - 1) * 100)] := by
  have h0 : ¬(_get_portfolio_value (Portfolio.init e0 esS) es1 = 0) :=
    ne_of_gt (portfolio_value_pos e0 esS es1)
  have hyne := years_difference_ne_zero ds de
    (strptime_valid s ds ((validate_ok_iff s ds).mp hs))
    (strptime_valid e de ((validate_ok_iff e de).mp he)) hne
  refine ⟨rfl, ?_⟩
  unfold calculate_profit_annualized
  simp only [hs, he, except_bind_ok, _calculate_profit_percentage,
    _calculate_annualized_return, if_neg h0, if_neg hyne, Rat.cast_div]
  rfl

/-- C6 witness: the amended theorem applied at `2020-01-01` and `2022-01-01`
with a concrete portfolio. -/
theorem c6_annualized_output_witness :
    _validate_date_format "2020-01-01" = .ok ⟨2020, 1, 1⟩ ∧
      (⟨2020, 1, 1⟩ : PyDate) ≠ ⟨2022, 1, 1⟩ ∧
      (_calculate_years_difference ⟨2020, 1, 1⟩ ⟨2022, 1, 1⟩ =
          (_calculate_days_difference ⟨2020, 1, 1⟩ ⟨2022, 1, 1⟩ : ℚ) / 365 ∧
        calculate_profit_annualized (Portfolio.init 0 (fun _ => 0)) (fun _ => 0) (fun _ => 0)
            "2020-01-01" "2022-01-01" =
          .ok [Line.text ("Profit since " ++ "2020-01-01" ++ ": "
              ++ formatFixed2 ((_get_portfolio_value (Portfolio.init 0 (fun _ => 0)) (fun _ => 0)
                  - _get_portfolio_value (Portfolio.init 0 (fun _ => 0)) (fun _ => 0))
                / _get_portfolio_value (Portfolio.init 0 (fun _ => 0)) (fun _ => 0) * 100) ++ "%"),
            Line.annualizedProfit
              ((((_get_portfolio_value (Portfolio.init 0 (fun _ => 0)) (fun _ => 0) : ℝ)
                  / (_get_portfolio_value (Portfolio.init 0 (fun _ => 0)) (fun _ => 0) : ℝ))
                ^ ((1 : ℝ) / (_calculate_years_difference ⟨2020, 1, 1⟩ ⟨2022, 1, 1⟩ : ℝ)) - 1)
                * 100)]) :=
  ⟨by rfl, by decide, c6_annualized_output 0 (fun _ => 0) (fun _ => 0) (fun _ => 0)
    "2020-01-01" "2022-01-01" ⟨2020, 1, 1⟩ ⟨2022, 1, 1⟩ (by rfl) (by rfl) (by decide)⟩

/-- C7: for every constructed portfolio and every valid date string used as
both start and end, the elapsed years value is 0 and the annualized-return
division by zero raises `ZeroDivisionError`, which propagates out of
`calculate_profit_annualized` uncaught. -/
theorem c7_identical_dates_zero_division (e0 : ℕ) (esS es1 es2 : ℕ → ℕ) (s : String)
    (d : PyDate) (hs : _validate_date_format s = .ok d) :
    _calculate_years_difference d d = 0 ∧
      _calculate_annualized_return (_get_portfolio_value (Portfolio.init e0 esS) es1)
        (_get_portfolio_value (Portfolio.init e0 esS) es2) 0 = .error .zeroDivision ∧
      calculate_profit_annualized (Portfolio.init e0 esS) es1 es2 s s =
        .error .zeroDivision := by
  have h0 : ¬(_get_portfolio_value (Portfolio.init e0 esS) es1 = 0) :=
    ne_of_gt (portfolio_value_pos e0 esS es1)
  refine ⟨years_difference_self d, ?_, ?_⟩
  · unfold _calculate_annualized_return
    rw [if_neg h0, if_pos rfl]
  · unfold calculate_profit_annualized
    simp only [hs, except_bind_ok, _calculate_profit_percentage,
      _calculate_annualized_return, if_neg h0, years_difference_self,
      if_pos rfl, if_true, except_bind_error]

/-- C7 witness: the zero-division theorem applied at `2022-01-01`. -/
theorem c7_identical_dates_zero_division_witness :
    calculate_profit_annualized (Portfolio.init 0 (fun _ => 0)) (fun _ => 0) (fun _ => 0)
        "2022-01-01" "2022-01-01" = .error .zeroDivision :=
  (c7_identical_dates_zero_division 0 (fun _ => 0) (fun _ => 0) (fun _ => 0)
    "2022-01-01" ⟨2022, 1, 1⟩ (by rfl)).2.2

/-- C8: for every constructed portfolio, the stock list has between 1 and 8
members, every ticker is from the fixed catalog, and the tickers are
pairwise distinct.  The list is stored once at construction and every
operation of the model is a pure function of the portfolio, so it is never
modified afterwards. -/
theorem c8_portfolio_invariants (e0 : ℕ) (es : ℕ → ℕ) :
    1 ≤ (Portfolio.init e0 es).stocks.length ∧
      (Portfolio.init e0 es).stocks.length ≤ 8 ∧
      (∀ s ∈ (Portfolio.init e0 es).stocks, s.name ∈ CUSTOM_RANDOM_STOCKS) ∧
      ((Portfolio.init e0 es).stocks.map Stock.name).Nodup :=
  generate_random_stocks_spec e0 es

/-- C9: the days difference is symmetric in its two arguments and
non-negative, and consequently the years difference is symmetric as well. -/
theorem c9_days_difference_symm (a b : PyDate) :
    _calculate_days_difference a b = _calculate_days_difference b a ∧
      0 ≤ _calculate_days_difference a b ∧
      _calculate_years_difference a b = _calculate_years_difference b a := by
  refine ⟨?_, ?_, ?_⟩
  · unfold _calculate_days_difference
    exact abs_sub_comm _ _
  · unfold _calculate_days_difference
    exact abs_nonneg _
  · unfold _calculate_years_difference _calculate_days_difference
    rw [abs_sub_comm]

/-- C10: every constructed portfolio has a strictly positive valuation (at
least one stock, each price at least 1.01), so the division by
`initial_price` in `_calculate_profit_percentage` always succeeds, and the
division by `initial_price` in `_calculate_annualized_return` never raises
(it can only raise through `years = 0`). -/
theorem c10_portfolio_value_pos (e0 : ℕ) (esS es1 es2 : ℕ → ℕ) :
    0 < _get_portfolio_value (Portfolio.init e0 esS) es1 ∧
      (∃ q, _calculate_profit_percentage (_get_portfolio_value (Portfolio.init e0 esS) es1)
        (_get_portfolio_value (Portfolio.init e0 esS) es2) = .ok q) ∧
      (∀ years : ℚ, years ≠ 0 →
        ∃ r, _calculate_annualized_return (_get_portfolio_value (Portfolio.init e0 esS) es1)
          (_get_portfolio_value (Portfolio.init e0 esS) es2) years = .ok r) := by
  have hpos := portfolio_value_pos e0 esS es1
  have h0 : ¬(_get_portfolio_value (Portfolio.init e0 esS) es1 = 0) := ne_of_gt hpos
  refine ⟨hpos, ?_, ?_⟩
  · refine ⟨(_get_portfolio_value (Portfolio.init e0 esS) es2
        - _get_portfolio_value (Portfolio.init e0 esS) es1)
        / _get_portfolio_value (Portfolio.init e0 esS) es1 * 100, ?_⟩
    unfold _calculate_profit_percentage
    rw [if_neg h0]
  · intro years hy
    refine ⟨(((_get_portfolio_value (Portfolio.init e0 esS) es2
          / _get_portfolio_value (Portfolio.init e0 esS) es1 : ℚ) : ℝ)
        ^ ((1 : ℝ) / (years : ℝ)) - 1) * 100, ?_⟩
    unfold _calculate_annualized_return
    rw [if_neg h0, if_neg hy]

/-- C10 witness: the no-division-by-zero theorem applied at a concrete
portfolio and `years = 1`. -/
theorem c10_portfolio_value_pos_witness :
    (1 : ℚ) ≠ 0 ∧
      (∃ r, _calculate_annualized_return
        (_get_portfolio_value (Portfolio.init 0 (fun _ => 0)) (fun _ => 0))
        (_get_portfolio_value (Portfolio.init 0 (fun _ => 0)) (fun _ => 0)) 1 = .ok r) :=
  ⟨by norm_num, (c10_portfolio_value_pos 0 (fun _ => 0) (fun _ => 0) (fun _ => 0)).2.2 1
    (by norm_num)⟩
